import Mathlib

/-!
Verification development for the study-coach repository.

This file shallowly embeds the summarization-validation pipeline
(src/study_coach/services/summarization.py) and the QA dataset service
(src/study_coach/services/qa_dataset.py).  Language-model backend calls are
modelled by an oracle structure whose fields range over exactly the values the
corresponding call can produce (a parsed structure, an extracted bullet list,
or a raised exception, modelled with Except).  Python strings are modelled by
Lean strings; Python len, slicing and startswith act on code points, exactly as
List operations on String.data do.  Python float literals 0.7, 0.4, 0.6, 0.2
are modelled as the corresponding rationals; for the comparisons the code
performs (integer counts against 0.7 * an integer count, and scores composed of
small fractions against a threshold) the double-precision evaluation and the
rational evaluation agree on every reachable magnitude.  datetime timestamps
are not modelled; uuid4 identifiers are modelled by a fresh-name supply
threaded through the state.
-/

/-- Python len on a string counts code points, as does List.length on
String.data. -/
def pyLen (s : String) : Nat := s.data.length

/-- Python slice s[:n] by code points. -/
def pyTake (s : String) (n : Nat) : String := ⟨s.data.take n⟩

/-- Python slice s[n:] by code points. -/
def pyDrop (s : String) (n : Nat) : String := ⟨s.data.drop n⟩

/-- Python s.startswith(pre). -/
def pyStartsWith (s pre : String) : Bool := pre.data.isPrefixOf s.data

/-- Python str.isspace for the ASCII whitespace characters; the bullets the
claims exercise contain no exotic unicode whitespace. -/
def pyIsSpace (c : Char) : Bool :=
  c = ' ' || c = '\t' || c = '\n' || c = '\r' || c = Char.ofNat 11 || c = Char.ofNat 12

/-- Python str.strip(): remove leading and trailing whitespace. -/
def pyStrip (s : String) : String :=
  ⟨((s.data.dropWhile pyIsSpace).reverse.dropWhile pyIsSpace).reverse⟩

theorem pyLen_append (a b : String) : pyLen (a ++ b) = pyLen a + pyLen b := by
  simp [pyLen, String.data_append]

theorem pyLen_pyTake (s : String) (n : Nat) : pyLen (pyTake s n) = min n (pyLen s) := by
  simp [pyLen, pyTake, List.length_take]

/-! ## Summarization pipeline (services/summarization.py) -/

/-- Result of topic extraction: the subject_areas and key_topics fields of the
structured completion (absent keys default to the empty list, as
response.get does). -/
structure Topics where
  subject_areas : List String
  key_topics : List String
deriving DecidableEq, Repr

/-- One entry of the validation response point_analysis: the point text and the
supported flag (p.get with default False). -/
structure PointAnalysisEntry where
  point : String
  supported : Bool
deriving DecidableEq, Repr

/-- The dictionary _validate_summary returns.  On the exception path the
point_analysis key is absent (none) and error is set. -/
structure ValidationRecord where
  point_analysis : Option (List PointAnalysisEntry)
  invalid_points_count : Nat
  total_points : Nat
  error : Option String
deriving DecidableEq, Repr

/-- The dictionary summarize_document returns.  The regenerated and filtered
keys are only ever set to True by the code, so key absence is modelled as
false. -/
structure SummaryResult where
  success : Bool
  error : Option String
  summary : List String
  topics : Option Topics
  validation : Option ValidationRecord
  regenerated : Bool
  filtered : Bool
deriving DecidableEq, Repr

/-- The two application-wide temperature presets of the ollama service. -/
inductive PromptType where
  | factual
  | creative
deriving DecidableEq, Repr

/-- One language-model backend call, as issued by the pipeline.  Temperatures
and top_p are the rational values of the float literals at the call site. -/
inductive LMCall where
  | structuredCompletion (pt : PromptType) (max_tokens : Nat)
  | completion (temperature topP : ℚ) (max_tokens : Nat)
deriving DecidableEq, Repr

/-- Oracle for the four backend interactions of one summarize_document run.
Each field holds either the value the call-site post-processing yields from the
response (structured fields with defaults applied, or the bullet list
_extract_json_array produces) or the exception the call raised. -/
structure Backend where
  topicsResp : Except String Topics
  summaryResp : Except String (List String)
  validationResp : Except String (List PointAnalysisEntry)
  replacementResp : Except String (List String)

/-- Fixed generic topic set used when extraction succeeds but yields neither
key topics nor subject areas (summarization.py lines 128-133). -/
def generic_topics : Topics :=
  { subject_areas := ["Academic", "Education", "Study Material"]
    key_topics := ["Concepts", "Definitions", "Key Points"] }

/-- Embedding of _extract_document_topics (summarization.py lines 98-146). -/
def extract_document_topics (b : Backend) : Topics :=
  match b.topicsResp with
  | .ok r =>
      if r.key_topics.isEmpty && r.subject_areas.isEmpty then generic_topics else r
  | .error _ => { subject_areas := [], key_topics := [] }

/-- Bullet clean-up applied per bullet (summarization.py lines 188-193, also
306-310): strip, then remove a leading "- " or a leading bullet-dot marker. -/
def strip_bullet_markers (s : String) : String :=
  let c := pyStrip s
  let c := if pyStartsWith c "- " then pyDrop c 2 else c
  if pyStartsWith c "• " then pyDrop c 2 else c

/-- Truncation applied per bullet (lines 196-197 and 313-314): clip to 97 code
points and append an ellipsis when longer than 100. -/
def clean_bullet (bullet : String) : String :=
  let c := strip_bullet_markers bullet
  if 100 < pyLen c then pyTake c 97 ++ "..." else c

/-- The bullet formatting loop of _generate_summary_points and
_generate_replacement_summary (lines 186-199 and 303-316): at most max_points
bullets, each cleaned. -/
def format_bullets (bullets : List String) (max_points : Nat) : List String :=
  (bullets.take max_points).map clean_bullet

/-- Fallback returned by _generate_summary_points when the completion call
raises (line 205). -/
def summary_error_fallback : List String :=
  ["Error: Unable to generate summary due to processing error. Please try again."]

/-- Embedding of _generate_summary_points (lines 148-205). -/
def generate_summary_points (b : Backend) (max_points : Nat) : List String :=
  match b.summaryResp with
  | .ok bullets => format_bullets bullets max_points
  | .error _ => summary_error_fallback

/-- Embedding of _generate_replacement_summary (lines 260-322): same
formatting, but the exception path returns the empty list. -/
def generate_replacement_summary (b : Backend) (max_points : Nat) : List String :=
  match b.replacementResp with
  | .ok bullets => format_bullets bullets max_points
  | .error _ => []

/-- Embedding of _validate_summary (lines 207-258). -/
def validate_summary (b : Backend) (summary_points : List String) : ValidationRecord :=
  match b.validationResp with
  | .ok analysis =>
      { point_analysis := some analysis
        invalid_points_count := (analysis.filter (fun p => !p.supported)).length
        total_points := analysis.length
        error := none }
  | .error e =>
      { point_analysis := none
        invalid_points_count := 0
        total_points := summary_points.length
        error := some e }

/-- Summary placed in the failure result for documents under 100 characters
(line 49). -/
def too_short_summary : List String :=
  ["Document contains insufficient content for summarization."]

/-- Document truncation before prompting (lines 53-54); it only affects prompt
content, never the decision logic. -/
def truncate_document (document_text : String) : String :=
  if 12000 < pyLen document_text then pyTake document_text 12000 ++ "..." else document_text

/-- The backend call issued by _extract_document_topics. -/
def topics_call : LMCall := .structuredCompletion .factual 500

/-- The backend call issued by _generate_summary_points: temperature 0.3,
top_p 0.95, max_tokens 1000. -/
def summary_call : LMCall := .completion (mkRat 3 10) (mkRat 95 100) 1000

/-- The backend call issued by _validate_summary. -/
def validation_call : LMCall := .structuredCompletion .factual 1500

/-- The backend call issued by _generate_replacement_summary: temperature 0.2,
top_p 0.9, max_tokens 1000. -/
def replacement_call : LMCall := .completion (mkRat 2 10) (mkRat 9 10) 1000

/-- The list comprehension of summarize_document lines 78-79: the points of the
supported entries of the point analysis, in order. -/
def supported_points (analysis : List PointAnalysisEntry) : List String :=
  (analysis.filter (fun p => p.supported)).map (fun p => p.point)

/-- Lines 78-79 applied to a validation record: validation.get with default
empty list, then the supported points. -/
def valid_points_of (validation : ValidationRecord) : List String :=
  supported_points (validation.point_analysis.getD [])

/-- Embedding of summarize_document (summarization.py lines 26-96), returning
the result dictionary together with the trace of backend calls issued.  The
line-82 test len(valid_points) < 0.7 * len(summary_points) compares integer
counts in double precision; for every length below 2 to the 49 this equals the
exact comparison with the rational 7/10 (at exact multiples the product
0.7 * n rounds to the integer 7n/10 or just below it, and either way the
strict comparison is unchanged), so it is embedded in the equivalent integer
form 10 * len(valid_points) < 7 * len(summary_points). -/
def summarize_document (b : Backend) (document_text : String)
    (max_points : Nat := 10) (validation_enabled : Bool := true) :
    SummaryResult × List LMCall :=
  if pyLen document_text < 100 then
    ({ success := false
       error := some "Document too short to summarize meaningfully"
       summary := too_short_summary
       topics := none, validation := none, regenerated := false, filtered := false }, [])
  else
    let _doc := truncate_document document_text
    let topics := extract_document_topics b
    let summary_points := generate_summary_points b max_points
    let result : SummaryResult :=
      { success := true, error := none, summary := summary_points
        topics := some topics, validation := none, regenerated := false, filtered := false }
    if validation_enabled && !summary_points.isEmpty then
      let validation := validate_summary b summary_points
      let result := { result with validation := some validation }
      if 0 < validation.invalid_points_count then
        let valid_points := valid_points_of validation
        if 10 * valid_points.length < 7 * summary_points.length then
          let replacement_summary := generate_replacement_summary b max_points
          let calls := [topics_call, summary_call, validation_call, replacement_call]
          if replacement_summary.isEmpty then (result, calls)
          else ({ result with summary := replacement_summary, regenerated := true }, calls)
        else
          ({ result with summary := valid_points, filtered := true },
           [topics_call, summary_call, validation_call])
      else (result, [topics_call, summary_call, validation_call])
    else (result, [topics_call, summary_call])

/-! ## QA dataset service (services/qa_dataset.py) -/

/-- Quality metrics stored on a question (qa_dataset.py lines 601-608); the
updated_at timestamp is not modelled. -/
structure QualityMetrics where
  accuracy : ℚ
  helpfulness : ℚ
  total_attempts : Nat
deriving DecidableEq, Repr

/-- A correct_answer value: the code stores either a 0-based option index or a
free string. -/
inductive AnswerVal where
  | int (n : Int)
  | str (s : String)
deriving DecidableEq, Repr

/-- A question document as persisted in the questions collection.  Dictionary
keys that only some code paths write are modelled as Option fields with none
for an absent key.  created_at / updated_at timestamps are not modelled. -/
structure QuestionDoc where
  id : String
  material_id : String
  question : String
  question_type : String
  options : List String
  correct_answer : Option AnswerVal
  topic : Option String
  difficulty : String
  is_adversarial : Option Bool := none
  adversarial_type : Option String := none
  quality_metrics : Option QualityMetrics := none
  improvement_notes : Option String := none
deriving DecidableEq, Repr

/-- A feedback document (qa_dataset.py lines 314-323); created_at is not
modelled. -/
structure FeedbackDoc where
  id : String
  question_id : String
  user_id : String
  is_correct : Bool
  is_helpful : Option Bool
  difficulty_rating : Option Nat
  feedback_text : Option String
deriving DecidableEq, Repr

/-- A changelog document (qa_dataset.py lines 640-651); the timestamp is not
modelled and previous_data is only present for updates. -/
structure ChangelogEntry where
  id : String
  question_id : String
  material_id : String
  action : String
  details : String
  qa_data : QuestionDoc
  previous_data : Option QuestionDoc := none
deriving DecidableEq, Repr

/-- The document store: the materials collection is consulted only for
existence, so it is the list of stored material ids. -/
structure DB where
  materials : List String
  questions : List QuestionDoc
  feedback : List FeedbackDoc
  changelog : List ChangelogEntry
deriving DecidableEq, Repr

/-- Service state: the store plus the uuid4 fresh-identifier supply. -/
structure St where
  db : DB
  next_id : Nat
deriving DecidableEq, Repr

/-- Draw a fresh identifier (models str(uuid.uuid4())). -/
def fresh_id (st : St) : String × St :=
  ("uuid-" ++ toString st.next_id, { st with next_id := st.next_id + 1 })

/-- Embedding of _log_qa_change (qa_dataset.py lines 615-654): append one
changelog document. -/
def log_qa_change (st : St) (question_id material_id action details : String)
    (qa_data : QuestionDoc) (previous_data : Option QuestionDoc := none) : String × St :=
  let (log_id, st) := fresh_id st
  let entry : ChangelogEntry :=
    { id := log_id, question_id := question_id, material_id := material_id
      action := action, details := details, qa_data := qa_data
      previous_data := previous_data }
  (log_id, { st with db := { st.db with changelog := st.db.changelog ++ [entry] } })

/-- Mongo update_one with an id filter: rewrite the first document whose id
matches, leave the rest unchanged. -/
def update_one (qs : List QuestionDoc) (qid : String) (f : QuestionDoc → QuestionDoc) :
    List QuestionDoc :=
  match qs with
  | [] => []
  | q :: rest => if q.id = qid then f q :: rest else q :: update_one rest qid f

/-- Mongo delete_one with an id filter: remove the first document whose id
matches. -/
def delete_one (qs : List QuestionDoc) (qid : String) : List QuestionDoc :=
  match qs with
  | [] => []
  | q :: rest => if q.id = qid then rest else q :: delete_one rest qid

/-- Mongo find on the feedback collection by question_id, in insertion
order. -/
def question_feedback (db : DB) (qid : String) : List FeedbackDoc :=
  db.feedback.filter (fun f => f.question_id = qid)

/-- The non-null is_helpful ratings of a feedback list (qa_dataset.py lines
380 and 593). -/
def helpful_ratings (feedback : List FeedbackDoc) : List Bool :=
  feedback.filterMap (fun f => f.is_helpful)

/-- accuracy = correct_answers / total_attempts if total_attempts else 0
(lines 384 and 597). -/
def accuracy_of (feedback : List FeedbackDoc) : ℚ :=
  if feedback.length = 0 then 0
  else ((feedback.countP (fun f => f.is_correct)) : ℚ) / (feedback.length : ℚ)

/-- helpfulness = helpful_count / len(helpful_ratings) if helpful_ratings else
0 (lines 385 and 598). -/
def helpfulness_of (feedback : List FeedbackDoc) : ℚ :=
  if (helpful_ratings feedback).length = 0 then 0
  else (((helpful_ratings feedback).countP (fun h => h)) : ℚ) /
    ((helpful_ratings feedback).length : ℚ)

/-- quality_score = (accuracy * 0.4) + (helpfulness * 0.6) (line 388). -/
def quality_score_of (feedback : List FeedbackDoc) : ℚ :=
  accuracy_of feedback * (4/10) + helpfulness_of feedback * (6/10)

/-- Embedding of _update_question_quality_metrics (qa_dataset.py lines
574-613): recompute metrics from feedback and $set them on the question.  Note
that this mutation writes no changelog document. -/
def update_question_quality_metrics (st : St) (question_id : String) : St :=
  let feedback := question_feedback st.db question_id
  if feedback = [] then st
  else
    let qm : QualityMetrics :=
      { accuracy := accuracy_of feedback
        helpfulness := helpfulness_of feedback
        total_attempts := feedback.length }
    { st with db := { st.db with
        questions := update_one st.db.questions question_id
          (fun q => { q with quality_metrics := some qm }) } }

/-- Embedding of record_question_feedback (qa_dataset.py lines 288-331):
append one feedback document, then recompute the question metrics. -/
def record_question_feedback (st : St) (question_id user_id : String) (is_correct : Bool)
    (is_helpful : Option Bool := none) (difficulty_rating : Option Nat := none)
    (feedback_text : Option String := none) : String × St :=
  let (feedback_id, st) := fresh_id st
  let fb : FeedbackDoc :=
    { id := feedback_id, question_id := question_id, user_id := user_id
      is_correct := is_correct, is_helpful := is_helpful
      difficulty_rating := difficulty_rating, feedback_text := feedback_text }
  let st := { st with db := { st.db with feedback := st.db.feedback ++ [fb] } }
  let st := update_question_quality_metrics st question_id
  (feedback_id, st)

/-- Parsed fields of a model-improved question (qa_dataset.py lines 507-521);
none models an absent JSON key. -/
structure ImprovedFields where
  question : Option String := none
  topic : Option String := none
  options : Option (List String) := none
  correct_answer : Option AnswerVal := none
  improvement_notes : Option String := none
deriving DecidableEq, Repr

/-- The fixed string _get_material_content returns (qa_dataset.py line 572);
it is non-empty, so the falsy-content guards never fire. -/
def placeholder_material_content : String :=
  "Sample study material content for placeholder purposes. Replace this with actual content retrieval logic."

/-- The $set document built in _improve_question (lines 510-521), applied to a
question document: snapshot is the question dictionary the caller read. -/
def improvement_update_data (snapshot : QuestionDoc) (improved : ImprovedFields)
    (q : QuestionDoc) : QuestionDoc :=
  let q := { q with
    question := improved.question.getD snapshot.question
    topic := match improved.topic with
             | some t => some t
             | none => snapshot.topic
    improvement_notes := some (improved.improvement_notes.getD "Question automatically improved") }
  let q := if snapshot.question_type = "multiple_choice" then
             match improved.options with
             | some os => { q with options := os }
             | none => q
           else q
  match improved.correct_answer with
  | some a => { q with correct_answer := some a }
  | none => q

/-- Embedding of _improve_question (qa_dataset.py lines 418-548).  The
improve_resp oracle maps a question id to the parsed JSON object of the model
response, or none when locating/parsing the JSON fails.  The feedback list
only shapes the prompt, which is not modelled. -/
def improve_question (improve_resp : String → Option ImprovedFields) (st : St)
    (question : QuestionDoc) (material_id : String)
    (_feedback : List FeedbackDoc) : Bool × St :=
  if material_id ∈ st.db.materials then
    match improve_resp question.id with
    | some improved =>
        let st := { st with db := { st.db with
            questions := update_one st.db.questions question.id
              (improvement_update_data question improved) } }
        let updated_data := improvement_update_data question improved question
        let (_, st) := log_qa_change st question.id material_id "updated"
            (improved.improvement_notes.getD "Question automatically improved")
            updated_data (some question)
        (true, st)
    | none => (false, st)
  else (false, st)

/-- Aggregate counters returned by evaluate_and_update_questions (lines
361-366). -/
structure EvalStats where
  total_questions : Nat
  removed : Nat
  updated : Nat
  no_action : Nat
deriving DecidableEq, Repr

/-- Round to the nearest integer, ties to even. -/
def roundHalfEven (x : ℚ) : Int :=
  let f := ⌊x⌋
  let r := x - (f : ℚ)
  if r < 1/2 then f else if 1/2 < r then f + 1 else if f % 2 = 0 then f else f + 1

/-- Python f-string formatting with :.2f, for the score values arising here
(two-decimal fixed-point rendering, ties to even). -/
def format_score_2 (x : ℚ) : String :=
  let n := roundHalfEven (x * 100)
  let sign := if n < 0 then "-" else ""
  let m := n.natAbs
  sign ++ toString (m / 100) ++ "." ++ (if m % 100 < 10 then "0" else "") ++ toString (m % 100)

/-- The details string of a removal changelog entry (line 401). -/
def removal_details (quality_score : ℚ) : String :=
  "Removed due to low quality score (" ++ format_score_2 quality_score ++ ")"

/-- Body of the per-question loop of evaluate_and_update_questions (qa_dataset.py
lines 369-414).  The 0.2 literal of line 392 is the rational 2/10. -/
def evaluate_question_step (improve_resp : String → Option ImprovedFields)
    (material_id : String) (threshold : ℚ)
    (acc : EvalStats × St) (qf : QuestionDoc × List FeedbackDoc) : EvalStats × St :=
  let (stats, st) := acc
  let (q, feedback) := qf
  if feedback = [] then ({ stats with no_action := stats.no_action + 1 }, st)
  else
    let quality_score := quality_score_of feedback
    if quality_score < threshold then
      if helpfulness_of feedback < 2/10 then
        let st := { st with db := { st.db with questions := delete_one st.db.questions q.id } }
        let (_, st) := log_qa_change st q.id material_id "removed"
            (removal_details quality_score) q
        ({ stats with removed := stats.removed + 1 }, st)
      else
        let (improved, st) := improve_question improve_resp st q material_id feedback
        if improved then ({ stats with updated := stats.updated + 1 }, st)
        else ({ stats with no_action := stats.no_action + 1 }, st)
    else ({ stats with no_action := stats.no_action + 1 }, st)

/-- Embedding of evaluate_and_update_questions (qa_dataset.py lines 333-416):
snapshot the questions of the material and their feedback, then fold the
per-question loop. -/
def evaluate_and_update_questions (improve_resp : String → Option ImprovedFields)
    (st : St) (material_id : String) (threshold : ℚ := 3/10) : EvalStats × St :=
  let questions := st.db.questions.filter (fun q => q.material_id = material_id)
  let pairs := questions.map (fun q => (q, question_feedback st.db q.id))
  let stats0 : EvalStats :=
    { total_questions := questions.length, removed := 0, updated := 0, no_action := 0 }
  pairs.foldl (evaluate_question_step improve_resp material_id threshold) (stats0, st)

/-- Python dict key set in insertion order: first occurrence of each value. -/
def pyDictKeys : List String → List String
  | [] => []
  | t :: ts => t :: (pyDictKeys ts).filter (fun s => s ≠ t)

/-- Value the qtype_count dict holds for key qt after the distribution loop
(qa_dataset.py lines 63-67): the even share plus one increment per occurrence
of qt among the first (num mod len) entries of the list. -/
def qtype_count (num_questions : Nat) (question_types : List String) (qt : String) : Nat :=
  num_questions / question_types.length +
    (question_types.take (num_questions % question_types.length)).count qt

/-- The qtype_count dict as an association list in key insertion order. -/
def qtype_counts (num_questions : Nat) (question_types : List String) :
    List (String × Nat) :=
  (pyDictKeys question_types).map (fun qt => (qt, qtype_count num_questions question_types qt))

/-- One raw question object parsed from a model response; none models an
absent JSON key.  qtype is the "type" key. -/
structure RawQuestion where
  question : Option String := none
  qtype : Option String := none
  options : Option (List String) := none
  correct_answer : Option AnswerVal := none
  topic : Option String := none
  adversarial_type : Option String := none
deriving DecidableEq, Repr

/-- The values accepted by the DifficultyLevel enum (models/models.py). -/
def difficulty_values : List String := ["easy", "medium", "hard"]

/-- The QuizQuestion built for one generated raw question (qa_dataset.py lines
89-99), as a stored document. -/
def mk_generated_question (material_id q_type difficulty question_id : String)
    (q : RawQuestion) : QuestionDoc :=
  { id := question_id
    material_id := material_id
    question := q.question.getD ""
    question_type := q.qtype.getD q_type
    options := if q_type = "multiple_choice" then q.options.getD [] else []
    correct_answer := q.correct_answer
    topic := some (q.topic.getD "General")
    difficulty := difficulty }

/-- The per-question body of the generation loop (qa_dataset.py lines 87-110):
draw an id, build the QuizQuestion (DifficultyLevel raises ValueError on an
unknown difficulty string), log one created entry, collect the question. -/
def create_question_step (material_id q_type difficulty : String) (raw : RawQuestion)
    (st : St) : Except String (QuestionDoc × St) :=
  let (question_id, st) := fresh_id st
  if difficulty ∈ difficulty_values then
    let qd := mk_generated_question material_id q_type difficulty question_id raw
    let (_, st) := log_qa_change st question_id material_id "created"
        "Automatically generated QA pair" qd
    .ok (qd, st)
  else .error (difficulty ++ " is not a valid DifficultyLevel")

/-- The generation loop over the raw questions of one type; a raised
ValueError aborts the run but keeps the state written so far. -/
def create_questions_from (material_id q_type difficulty : String) :
    List RawQuestion → St → Except String (List QuestionDoc) × St
  | [], st => (.ok [], st)
  | raw :: rest, st =>
      match create_question_step material_id q_type difficulty raw st with
      | .error e => (.error e, st)
      | .ok (qd, st) =>
          match create_questions_from material_id q_type difficulty rest st with
          | (.error e, st) => (.error e, st)
          | (.ok qds, st) => (.ok (qd :: qds), st)

/-- The loop over the type distribution (qa_dataset.py lines 72-110); a type
with a zero count issues no model call.  quiz_resp is the oracle for
generate_quiz_questions, by question type and count. -/
def generate_for_types (quiz_resp : String → Nat → List RawQuestion)
    (material_id difficulty : String) :
    List (String × Nat) → St → Except String (List QuestionDoc) × St
  | [], st => (.ok [], st)
  | (q_type, count) :: rest, st =>
      if count = 0 then generate_for_types quiz_resp material_id difficulty rest st
      else
        let raws := quiz_resp q_type count
        match create_questions_from material_id q_type difficulty raws st with
        | (.error e, st) => (.error e, st)
        | (.ok qds, st) =>
            match generate_for_types quiz_resp material_id difficulty rest st with
            | (.error e, st) => (.error e, st)
            | (.ok more, st) => (.ok (qds ++ more), st)

/-- db.create_questions_batch: insert the documents into the questions
collection. -/
def create_questions_batch (st : St) (qs : List QuestionDoc) : St :=
  { st with db := { st.db with questions := st.db.questions ++ qs } }

/-- Embedding of generate_qa_pairs (qa_dataset.py lines 31-116).  The material
content is the placeholder string, which is non-empty, so the empty-content
guard never fires; an empty question_types list raises ZeroDivisionError at
the distribution step. -/
def generate_qa_pairs (quiz_resp : String → Nat → List RawQuestion) (st : St)
    (material_id : String) (num_questions : Nat) (question_types : List String)
    (difficulty : String) : Except String (List QuestionDoc) × St :=
  if material_id ∈ st.db.materials then
    if question_types.length = 0 then
      (.error "integer division or modulo by zero", st)
    else
      match generate_for_types quiz_resp material_id difficulty
          (qtype_counts num_questions question_types) st with
      | (.error e, st) => (.error e, st)
      | (.ok all_questions, st) =>
          let st := if all_questions = [] then st else create_questions_batch st all_questions
          (.ok all_questions, st)
  else (.error ("Study material with ID " ++ material_id ++ " not found"), st)

/-- The QuizQuestion built for one adversarial example (qa_dataset.py lines
247-257): always difficulty hard, options taken unconditionally. -/
def mk_adversarial_question (material_id question_id : String) (ex : RawQuestion) :
    QuestionDoc :=
  { id := question_id
    material_id := material_id
    question := ex.question.getD ""
    question_type := ex.qtype.getD "multiple_choice"
    options := ex.options.getD []
    correct_answer := ex.correct_answer
    topic := some (ex.topic.getD "Adversarial example")
    difficulty := "hard" }

/-- The per-example loop of generate_adversarial_examples (lines 245-273): the
changelog snapshot carries is_adversarial and the adversarial_type default,
while the collected QuizQuestion object does not. -/
def adversarial_log_loop (material_id : String) :
    List RawQuestion → St → List QuestionDoc × St
  | [], st => ([], st)
  | ex :: rest, st =>
      let (question_id, st) := fresh_id st
      let question := mk_adversarial_question material_id question_id ex
      let question_dict :=
        { question with is_adversarial := some true
                        adversarial_type := some (ex.adversarial_type.getD "general") }
      let (_, st) := log_qa_change st question_id material_id "created"
          "Generated adversarial example" question_dict
      let (rest_qs, st) := adversarial_log_loop material_id rest st
      (question :: rest_qs, st)

/-- The save loop of generate_adversarial_examples (lines 279-284): re-derive
the dictionary from the object, add is_adversarial only, insert. -/
def insert_adversarial (st : St) (qs : List QuestionDoc) : St :=
  qs.foldl (fun st q =>
    { st with db := { st.db with
        questions := st.db.questions ++ [{ q with is_adversarial := some true }] } }) st

/-- Embedding of generate_adversarial_examples (qa_dataset.py lines 118-286).
adv_resp is the parsed JSON array of the creative completion, or none when
locating/parsing the JSON fails (the except path returns the empty list with
nothing written).  The sampling of existing questions and num_examples shape
only the prompt, which is not modelled. -/
def generate_adversarial_examples (adv_resp : Option (List RawQuestion)) (st : St)
    (material_id : String) : Except String (List QuestionDoc) × St :=
  if material_id ∈ st.db.materials then
    match adv_resp with
    | none => (.ok [], st)
    | some examples =>
        let (adversarial_questions, st) := adversarial_log_loop material_id examples st
        let st := insert_adversarial st adversarial_questions
        (.ok adversarial_questions, st)
  else (.error ("Study material with ID " ++ material_id ++ " not found"), st)

/-! ## Branch characterizations of summarize_document -/

theorem summarize_document_short (b : Backend) (doc : String) (mp : Nat) (ve : Bool)
    (h : pyLen doc < 100) :
    summarize_document b doc mp ve =
      ({ success := false, error := some "Document too short to summarize meaningfully",
         summary := too_short_summary, topics := none, validation := none,
         regenerated := false, filtered := false }, []) := by
  simp [summarize_document, h]

theorem summarize_document_no_validation (b : Backend) (doc : String) (mp : Nat) (ve : Bool)
    (h : ¬ pyLen doc < 100)
    (h2 : (ve && !(generate_summary_points b mp).isEmpty) = false) :
    summarize_document b doc mp ve =
      ({ success := true, error := none, summary := generate_summary_points b mp,
         topics := some (extract_document_topics b), validation := none,
         regenerated := false, filtered := false }, [topics_call, summary_call]) := by
  simp [summarize_document, h, h2]

theorem summarize_document_all_valid (b : Backend) (doc : String) (mp : Nat)
    (h : ¬ pyLen doc < 100)
    (hne : (generate_summary_points b mp).isEmpty = false)
    (hinv : ¬ 0 < (validate_summary b (generate_summary_points b mp)).invalid_points_count) :
    summarize_document b doc mp true =
      ({ success := true, error := none, summary := generate_summary_points b mp,
         topics := some (extract_document_topics b),
         validation := some (validate_summary b (generate_summary_points b mp)),
         regenerated := false, filtered := false },
       [topics_call, summary_call, validation_call]) := by
  simp [summarize_document, h, hne, hinv]

theorem summarize_document_filter (b : Backend) (doc : String) (mp : Nat)
    (h : ¬ pyLen doc < 100)
    (hne : (generate_summary_points b mp).isEmpty = false)
    (hinv : 0 < (validate_summary b (generate_summary_points b mp)).invalid_points_count)
    (hthr : ¬ 10 * (valid_points_of (validate_summary b (generate_summary_points b mp))).length
          < 7 * (generate_summary_points b mp).length) :
    summarize_document b doc mp true =
      ({ success := true, error := none,
         summary := valid_points_of (validate_summary b (generate_summary_points b mp)),
         topics := some (extract_document_topics b),
         validation := some (validate_summary b (generate_summary_points b mp)),
         regenerated := false, filtered := true },
       [topics_call, summary_call, validation_call]) := by
  simp [summarize_document, h, hne, hinv, hthr]

theorem summarize_document_regen_empty (b : Backend) (doc : String) (mp : Nat)
    (h : ¬ pyLen doc < 100)
    (hne : (generate_summary_points b mp).isEmpty = false)
    (hinv : 0 < (validate_summary b (generate_summary_points b mp)).invalid_points_count)
    (hthr : 10 * (valid_points_of (validate_summary b (generate_summary_points b mp))).length
          < 7 * (generate_summary_points b mp).length)
    (hrep : (generate_replacement_summary b mp).isEmpty = true) :
    summarize_document b doc mp true =
      ({ success := true, error := none, summary := generate_summary_points b mp,
         topics := some (extract_document_topics b),
         validation := some (validate_summary b (generate_summary_points b mp)),
         regenerated := false, filtered := false },
       [topics_call, summary_call, validation_call, replacement_call]) := by
  simp [summarize_document, h, hne, hinv, hthr, hrep]

theorem summarize_document_regen (b : Backend) (doc : String) (mp : Nat)
    (h : ¬ pyLen doc < 100)
    (hne : (generate_summary_points b mp).isEmpty = false)
    (hinv : 0 < (validate_summary b (generate_summary_points b mp)).invalid_points_count)
    (hthr : 10 * (valid_points_of (validate_summary b (generate_summary_points b mp))).length
          < 7 * (generate_summary_points b mp).length)
    (hrep : (generate_replacement_summary b mp).isEmpty = false) :
    summarize_document b doc mp true =
      ({ success := true, error := none, summary := generate_replacement_summary b mp,
         topics := some (extract_document_topics b),
         validation := some (validate_summary b (generate_summary_points b mp)),
         regenerated := true, filtered := false },
       [topics_call, summary_call, validation_call, replacement_call]) := by
  simp [summarize_document, h, hne, hinv, hthr, hrep]

theorem summarize_document_head_call (b : Backend) (doc : String) (mp : Nat) (ve : Bool)
    (h : ¬ pyLen doc < 100) :
    ((summarize_document b doc mp ve).2).head? = some topics_call := by
  simp only [summarize_document, if_neg h]
  split <;> (try split) <;> (try split) <;> (try split) <;> rfl

/-! ## Length bounds on formatted bullets -/

theorem clean_bullet_length_le (s : String) : pyLen (clean_bullet s) ≤ 100 := by
  have h : clean_bullet s =
      if 100 < pyLen (strip_bullet_markers s) then
        pyTake (strip_bullet_markers s) 97 ++ "..." else strip_bullet_markers s := rfl
  rw [h]
  split
  · rw [pyLen_append, pyLen_pyTake]
    have h3 : pyLen "..." = 3 := rfl
    rw [h3]
    have := Nat.min_le_left 97 (pyLen (strip_bullet_markers s))
    omega
  · omega

theorem format_bullets_length_le (bullets : List String) (mp : Nat) :
    (format_bullets bullets mp).length ≤ mp := by
  simp only [format_bullets, List.length_map, List.length_take]
  exact Nat.min_le_left mp bullets.length

theorem format_bullets_point_le (bullets : List String) (mp : Nat) (p : String)
    (hp : p ∈ format_bullets bullets mp) : pyLen p ≤ 100 := by
  simp only [format_bullets, List.mem_map] at hp
  obtain ⟨q, -, rfl⟩ := hp
  exact clean_bullet_length_le q

theorem generate_summary_points_length_le (b : Backend) (mp : Nat) (hmp : 1 ≤ mp) :
    (generate_summary_points b mp).length ≤ mp := by
  unfold generate_summary_points
  cases b.summaryResp with
  | ok bullets => exact format_bullets_length_le bullets mp
  | error e => simpa [summary_error_fallback] using hmp

theorem generate_summary_points_point_le (b : Backend) (mp : Nat) (p : String)
    (hp : p ∈ generate_summary_points b mp) : pyLen p ≤ 100 := by
  unfold generate_summary_points at hp
  cases h : b.summaryResp with
  | ok bullets => rw [h] at hp; exact format_bullets_point_le bullets mp p hp
  | error e =>
      rw [h] at hp
      simp only [summary_error_fallback, List.mem_singleton] at hp
      subst hp
      decide

theorem generate_replacement_summary_length_le (b : Backend) (mp : Nat) :
    (generate_replacement_summary b mp).length ≤ mp := by
  unfold generate_replacement_summary
  cases b.replacementResp with
  | ok bullets => exact format_bullets_length_le bullets mp
  | error e => simp

theorem generate_replacement_summary_point_le (b : Backend) (mp : Nat) (p : String)
    (hp : p ∈ generate_replacement_summary b mp) : pyLen p ≤ 100 := by
  unfold generate_replacement_summary at hp
  cases h : b.replacementResp with
  | ok bullets => rw [h] at hp; exact format_bullets_point_le bullets mp p hp
  | error e => rw [h] at hp; simp at hp

/-! ## Concrete fixtures -/

/-- A 150-character document, above the minimum length. -/
def test_document : String := ⟨List.replicate 150 'a'⟩

/-- Ten short summary points, unchanged by bullet formatting. -/
def pts10 : List String := ["p0","p1","p2","p3","p4","p5","p6","p7","p8","p9"]

/-- Validation analysis supporting 6 of the 10 points. -/
def analysis_6_of_10 : List PointAnalysisEntry :=
  [⟨"p0",true⟩,⟨"p1",true⟩,⟨"p2",true⟩,⟨"p3",true⟩,⟨"p4",true⟩,⟨"p5",true⟩,
   ⟨"p6",false⟩,⟨"p7",false⟩,⟨"p8",false⟩,⟨"p9",false⟩]

/-- Validation analysis supporting 7 of the 10 points. -/
def analysis_7_of_10 : List PointAnalysisEntry :=
  [⟨"p0",true⟩,⟨"p1",true⟩,⟨"p2",true⟩,⟨"p3",true⟩,⟨"p4",true⟩,⟨"p5",true⟩,
   ⟨"p6",true⟩,⟨"p7",false⟩,⟨"p8",false⟩,⟨"p9",false⟩]

/-- Backend: 10 points generated, 6 supported, regeneration raises. -/
def backend_regen_fail : Backend :=
  { topicsResp := .ok ⟨["Science"],["Physics"]⟩
    summaryResp := .ok pts10
    validationResp := .ok analysis_6_of_10
    replacementResp := .error "timeout" }

/-- Backend: 10 points generated, 7 supported. -/
def backend_filter7 : Backend :=
  { topicsResp := .ok ⟨["Science"],["Physics"]⟩
    summaryResp := .ok pts10
    validationResp := .ok analysis_7_of_10
    replacementResp := .error "timeout" }

/-- Backend: 10 points generated, 6 supported, regeneration succeeds. -/
def backend_regen_ok : Backend :=
  { topicsResp := .ok ⟨["Science"],["Physics"]⟩
    summaryResp := .ok pts10
    validationResp := .ok analysis_6_of_10
    replacementResp := .ok ["r0","r1","r2"] }

/-- Backend whose validation approves the single generated point. -/
def backend_plain : Backend :=
  { topicsResp := .ok ⟨["Science"],["Physics"]⟩
    summaryResp := .ok ["p0"]
    validationResp := .ok [⟨"p0", true⟩]
    replacementResp := .ok [] }

/-- A 99-character document. -/
def doc_99 : String := ⟨List.replicate 99 'a'⟩

/-- A 100-character document. -/
def doc_100 : String := ⟨List.replicate 100 'a'⟩

/-! ## Claim theorems: summarization -/

set_option maxRecDepth 10000 in
/-- C1 counterexample: with 10 generated points, only 6 of them supported
(below the 0.7 fraction, so the regenerate branch is taken) and the
regeneration call raising, the returned result does not carry the regenerated
flag, contrary to the claim that the regenerate branch always returns
regenerated = true. -/
theorem claim_C1_counterexample :
    generate_summary_points backend_regen_fail 10 = pts10 ∧
    (valid_points_of (validate_summary backend_regen_fail pts10)).length = 6 ∧
    ((summarize_document backend_regen_fail test_document 10 true).1).regenerated = false := by
  decide

/-- C1 (amended): when validation reports at least one unsupported point: if
the supported count is at least 0.7 times the generated count, the result is
exactly the supported points with filtered = true and no regenerated flag;
otherwise one further generation call is issued at temperature 0.2 and
top_p 0.9, and when it returns a non-empty list the result is that list with
regenerated = true and no filtered flag (when it returns nothing, no flag is
set). -/
theorem claim_C1 (b : Backend) (doc : String) (mp : Nat)
    (analysis : List PointAnalysisEntry)
    (h : ¬ pyLen doc < 100)
    (hval : b.validationResp = .ok analysis)
    (hne : (generate_summary_points b mp).isEmpty = false)
    (hinv : 0 < (analysis.filter (fun p => !p.supported)).length) :
    (7 * (generate_summary_points b mp).length ≤ 10 * (supported_points analysis).length →
      ((summarize_document b doc mp true).1).summary = supported_points analysis ∧
      ((summarize_document b doc mp true).1).filtered = true ∧
      ((summarize_document b doc mp true).1).regenerated = false) ∧
    (10 * (supported_points analysis).length < 7 * (generate_summary_points b mp).length →
      (summarize_document b doc mp true).2 =
        [topics_call, summary_call, validation_call,
         LMCall.completion (mkRat 2 10) (mkRat 9 10) 1000] ∧
      ((generate_replacement_summary b mp).isEmpty = false →
        ((summarize_document b doc mp true).1).summary = generate_replacement_summary b mp ∧
        ((summarize_document b doc mp true).1).regenerated = true ∧
        ((summarize_document b doc mp true).1).filtered = false)) := by
  have hv : validate_summary b (generate_summary_points b mp) =
      { point_analysis := some analysis
        invalid_points_count := (analysis.filter (fun p => !p.supported)).length
        total_points := analysis.length
        error := none } := by
    simp [validate_summary, hval]
  have hvp : valid_points_of (validate_summary b (generate_summary_points b mp)) =
      supported_points analysis := by
    rw [hv]; rfl
  have hinv' : 0 < (validate_summary b (generate_summary_points b mp)).invalid_points_count := by
    rw [hv]; exact hinv
  constructor
  · intro hthr
    have hthr' : ¬ 10 * (valid_points_of (validate_summary b
        (generate_summary_points b mp))).length < 7 * (generate_summary_points b mp).length := by
      rw [hvp]; omega
    rw [summarize_document_filter b doc mp h hne hinv' hthr']
    exact ⟨hvp, rfl, rfl⟩
  · intro hthr
    have hthr' : 10 * (valid_points_of (validate_summary b
        (generate_summary_points b mp))).length < 7 * (generate_summary_points b mp).length := by
      rw [hvp]; exact hthr
    by_cases hrep : (generate_replacement_summary b mp).isEmpty = true
    · rw [summarize_document_regen_empty b doc mp h hne hinv' hthr' hrep]
      exact ⟨rfl, fun hrepne => absurd hrep (by simp [hrepne])⟩
    · have hrep' : (generate_replacement_summary b mp).isEmpty = false := by
        revert hrep; cases (generate_replacement_summary b mp).isEmpty <;> simp
      rw [summarize_document_regen b doc mp h hne hinv' hthr' hrep']
      exact ⟨rfl, fun _ => ⟨rfl, rfl, rfl⟩⟩

set_option maxRecDepth 10000 in
/-- C1 witness: the amended theorem applied to the concrete 7-of-10 backend
(filter branch) and the concrete 6-of-10 backend with a successful
regeneration (regenerate branch). -/
theorem claim_C1_witness :
    (((summarize_document backend_filter7 test_document 10 true).1).summary =
        supported_points analysis_7_of_10 ∧
      ((summarize_document backend_filter7 test_document 10 true).1).filtered = true ∧
      ((summarize_document backend_filter7 test_document 10 true).1).regenerated = false) ∧
    (((summarize_document backend_regen_ok test_document 10 true).1).summary =
        generate_replacement_summary backend_regen_ok 10 ∧
      ((summarize_document backend_regen_ok test_document 10 true).1).regenerated = true ∧
      ((summarize_document backend_regen_ok test_document 10 true).1).filtered = false) := by
  constructor
  · exact (claim_C1 backend_filter7 test_document 10 analysis_7_of_10
      (by decide) rfl (by decide) (by decide)).1 (by decide)
  · exact ((claim_C1 backend_regen_ok test_document 10 analysis_6_of_10
      (by decide) rfl (by decide) (by decide)).2 (by decide)).2 (by decide)

set_option maxRecDepth 10000 in
/-- C5 counterexample: in the regenerate branch with a failing regeneration
the returned summary is the original ten points, not the empty list the claim
asserts. -/
theorem claim_C5_counterexample :
    (valid_points_of (validate_summary backend_regen_fail pts10)).length = 6 ∧
    generate_replacement_summary backend_regen_fail 10 = [] ∧
    ((summarize_document backend_regen_fail test_document 10 true).1).summary = pts10 ∧
    pts10 ≠ [] := by
  decide

/-- C5 (amended): when the regenerate branch is taken and the replacement
generation fails or returns an empty list, the returned result keeps the
original summary points unchanged, with neither the regenerated nor the
filtered flag; no exception escapes (the embedding is a total function and
this branch returns normally). -/
theorem claim_C5 (b : Backend) (doc : String) (mp : Nat)
    (h : ¬ pyLen doc < 100)
    (hne : (generate_summary_points b mp).isEmpty = false)
    (hinv : 0 < (validate_summary b (generate_summary_points b mp)).invalid_points_count)
    (hthr : 10 * (valid_points_of (validate_summary b (generate_summary_points b mp))).length
          < 7 * (generate_summary_points b mp).length)
    (hrep : generate_replacement_summary b mp = []) :
    ((summarize_document b doc mp true).1).summary = generate_summary_points b mp ∧
    ((summarize_document b doc mp true).1).regenerated = false ∧
    ((summarize_document b doc mp true).1).filtered = false := by
  rw [summarize_document_regen_empty b doc mp h hne hinv hthr (by simp [hrep])]
  exact ⟨rfl, rfl, rfl⟩

set_option maxRecDepth 10000 in
/-- C5 witness: the amended theorem applied to the concrete backend whose
regeneration raises. -/
theorem claim_C5_witness :
    ((summarize_document backend_regen_fail test_document 10 true).1).summary =
      generate_summary_points backend_regen_fail 10 ∧
    ((summarize_document backend_regen_fail test_document 10 true).1).regenerated = false ∧
    ((summarize_document backend_regen_fail test_document 10 true).1).filtered = false :=
  claim_C5 backend_regen_fail test_document 10
    (by decide) (by decide) (by decide) (by decide) (by decide)

/-- C6: a document shorter than 100 characters is rejected immediately with
success = false, the fixed placeholder summary and an empty backend-call
trace; a document of length at least 100 proceeds, the first backend call
being the topic extraction. -/
theorem claim_C6 (b : Backend) (doc : String) (mp : Nat) (ve : Bool) :
    (pyLen doc < 100 →
      ((summarize_document b doc mp ve).1).success = false ∧
      ((summarize_document b doc mp ve).1).summary = too_short_summary ∧
      (summarize_document b doc mp ve).2 = []) ∧
    (100 ≤ pyLen doc →
      ((summarize_document b doc mp ve).2).head? = some topics_call) := by
  constructor
  · intro hlt
    rw [summarize_document_short b doc mp ve hlt]
    exact ⟨rfl, rfl, rfl⟩
  · intro hge
    exact summarize_document_head_call b doc mp ve (by omega)

set_option maxRecDepth 10000 in
/-- C6 witness: the theorem applied to a 99-character and a 100-character
document. -/
theorem claim_C6_witness :
    (((summarize_document backend_plain doc_99 10 true).1).success = false ∧
     ((summarize_document backend_plain doc_99 10 true).1).summary = too_short_summary ∧
     (summarize_document backend_plain doc_99 10 true).2 = []) ∧
    ((summarize_document backend_plain doc_100 10 true).2).head? = some topics_call :=
  ⟨(claim_C6 backend_plain doc_99 10 true).1 (by decide),
   (claim_C6 backend_plain doc_100 10 true).2 (by decide)⟩

/-- C7 counterexample: when the topic-extraction call raises, the code
returns empty topic lists (the comment at line 142 reads: return empty topics
on failure), not the fixed generic topic set the claim asserts. -/
theorem claim_C7_counterexample :
    extract_document_topics
      { topicsResp := .error "boom", summaryResp := .ok [],
        validationResp := .ok [], replacementResp := .ok [] } =
      { subject_areas := [], key_topics := [] } ∧
    generic_topics.key_topics ≠ [] := by
  decide

/-- C7 (amended): when the topic extraction call succeeds but returns empty
subject_areas and key_topics, the fixed generic topic set (with non-empty
subject areas and key topics) is returned; when the call raises, empty topic
lists are returned instead. -/
theorem claim_C7 (b : Backend) :
    (∀ r, b.topicsResp = .ok r → r.subject_areas = [] → r.key_topics = [] →
      extract_document_topics b = generic_topics ∧
      generic_topics.subject_areas ≠ [] ∧ generic_topics.key_topics ≠ []) ∧
    (∀ e, b.topicsResp = .error e →
      extract_document_topics b = { subject_areas := [], key_topics := [] }) := by
  constructor
  · intro r hr h1 h2
    refine ⟨?_, by decide, by decide⟩
    simp [extract_document_topics, hr, h1, h2]
  · intro e he
    simp [extract_document_topics, he]

/-- Backend whose topic extraction succeeds with empty fields. -/
def backend_empty_topics : Backend :=
  { topicsResp := .ok ⟨[], []⟩, summaryResp := .ok [],
    validationResp := .ok [], replacementResp := .ok [] }

/-- C7 witness: the amended theorem applied to a backend whose extraction
succeeds with empty fields. -/
theorem claim_C7_witness :
    extract_document_topics backend_empty_topics = generic_topics :=
  ((claim_C7 backend_empty_topics).1 ⟨[], []⟩ rfl rfl rfl).1

/-- Replacing only the validation response of a backend does not change the
generated summary points. -/
theorem generate_summary_points_validation_invariant (b : Backend)
    (v : Except String (List PointAnalysisEntry)) (mp : Nat) :
    generate_summary_points { b with validationResp := v } mp =
      generate_summary_points b mp := rfl

/-- C10: if the validation call raises, the validation record reports zero
invalid points and carries an error field; summarize_document then accepts the
initial summary unchanged with neither the filtered nor the regenerated flag,
and the returned summary and flags are the same as under a validation that
approved every point. -/
theorem claim_C10 (b : Backend) (doc : String) (mp : Nat) (e : String)
    (h : ¬ pyLen doc < 100)
    (hne : (generate_summary_points b mp).isEmpty = false)
    (herr : b.validationResp = .error e) :
    ((summarize_document b doc mp true).1).summary = generate_summary_points b mp ∧
    ((summarize_document b doc mp true).1).filtered = false ∧
    ((summarize_document b doc mp true).1).regenerated = false ∧
    ((summarize_document b doc mp true).1).validation =
      some { point_analysis := none, invalid_points_count := 0,
             total_points := (generate_summary_points b mp).length, error := some e } ∧
    (∀ analysis : List PointAnalysisEntry, (∀ p ∈ analysis, p.supported = true) →
      ((summarize_document { b with validationResp := .ok analysis } doc mp true).1).summary =
        ((summarize_document b doc mp true).1).summary ∧
      ((summarize_document { b with validationResp := .ok analysis } doc mp true).1).filtered =
        ((summarize_document b doc mp true).1).filtered ∧
      ((summarize_document { b with validationResp := .ok analysis } doc mp
          true).1).regenerated =
        ((summarize_document b doc mp true).1).regenerated) := by
  have hv : validate_summary b (generate_summary_points b mp) =
      { point_analysis := none, invalid_points_count := 0,
        total_points := (generate_summary_points b mp).length, error := some e } := by
    simp [validate_summary, herr]
  have hrw := summarize_document_all_valid b doc mp h hne (by rw [hv]; simp)
  rw [hrw, hv]
  refine ⟨rfl, rfl, rfl, rfl, ?_⟩
  intro analysis hall
  set b' : Backend := { b with validationResp := .ok analysis } with hb'
  have hne' : (generate_summary_points b' mp).isEmpty = false := hne
  have hfil : analysis.filter (fun p => !p.supported) = [] := by
    rw [List.filter_eq_nil_iff]
    intro p hp
    simp [hall p hp]
  have hv' : (validate_summary b' (generate_summary_points b' mp)).invalid_points_count = 0 := by
    simp [validate_summary, hb', hfil]
  have hrw' := summarize_document_all_valid b' doc mp h hne' (by omega)
  rw [hrw']
  exact ⟨rfl, rfl, rfl⟩

/-- Backend whose validation call raises. -/
def backend_validation_error : Backend :=
  { topicsResp := .ok ⟨["Science"],["Physics"]⟩
    summaryResp := .ok ["p0"]
    validationResp := .error "llm unavailable"
    replacementResp := .ok [] }

set_option maxRecDepth 10000 in
/-- C10 witness: the theorem applied to a concrete backend whose validation
call raises. -/
theorem claim_C10_witness :
    ((summarize_document backend_validation_error test_document 10 true).1).summary =
      generate_summary_points backend_validation_error 10 ∧
    ((summarize_document backend_validation_error test_document 10 true).1).filtered = false ∧
    ((summarize_document backend_validation_error test_document 10 true).1).regenerated
      = false := by
  have h := claim_C10 backend_validation_error test_document 10 "llm unavailable"
    (by decide) (by decide) rfl
  exact ⟨h.1, h.2.1, h.2.2.1⟩

/-- A 101-character point, longer than the truncation bound. -/
def long_point : String := ⟨List.replicate 101 'x'⟩

/-- Backend whose validation response marks the single generated point
unsupported and introduces a long supported point of its own. -/
def backend_alien_point : Backend :=
  { topicsResp := .ok ⟨["Science"],["Physics"]⟩
    summaryResp := .ok ["p0"]
    validationResp := .ok [⟨"p0", false⟩, ⟨long_point, true⟩]
    replacementResp := .ok [] }

set_option maxRecDepth 10000 in
/-- C3 counterexample: the filter branch copies the supported points out of
the validation response, so a validation response carrying a 101-character
supported point makes summarize_document return a summary entry longer than
100 characters. -/
theorem claim_C3_counterexample :
    ((summarize_document backend_alien_point test_document 10 true).1).summary =
      [long_point] ∧
    pyLen long_point = 101 := by
  decide

/-- C3 (amended): provided max_points is at least 1 and the supported points
of any successful validation response form a sublist of the generated summary
points (as they do when validation echoes the generated points back), every
summary list summarize_document returns has at most max_points entries, each
at most 100 characters long. -/
theorem claim_C3 (b : Backend) (doc : String) (mp : Nat) (ve : Bool)
    (hmp : 1 ≤ mp)
    (hsub : ∀ analysis, b.validationResp = .ok analysis →
      List.Sublist (supported_points analysis) (generate_summary_points b mp)) :
    ((summarize_document b doc mp ve).1).summary.length ≤ mp ∧
    ∀ p ∈ ((summarize_document b doc mp ve).1).summary, pyLen p ≤ 100 := by
  have hgsp : (generate_summary_points b mp).length ≤ mp ∧
      ∀ p ∈ generate_summary_points b mp, pyLen p ≤ 100 :=
    ⟨generate_summary_points_length_le b mp hmp,
     fun p hp => generate_summary_points_point_le b mp p hp⟩
  by_cases h : pyLen doc < 100
  · rw [summarize_document_short b doc mp ve h]
    refine ⟨by simpa [too_short_summary] using hmp, ?_⟩
    intro p hp
    simp only [too_short_summary, List.mem_singleton] at hp
    subst hp
    decide
  · by_cases hve : (ve && !(generate_summary_points b mp).isEmpty) = true
    · obtain ⟨hvet, hnet⟩ := Bool.and_eq_true_iff.mp hve
      have hne : (generate_summary_points b mp).isEmpty = false := by
        revert hnet; cases (generate_summary_points b mp).isEmpty <;> simp
      subst hvet
      by_cases hinv :
          0 < (validate_summary b (generate_summary_points b mp)).invalid_points_count
      · by_cases hthr : 10 * (valid_points_of (validate_summary b
            (generate_summary_points b mp))).length < 7 * (generate_summary_points b mp).length
        · by_cases hrep : (generate_replacement_summary b mp).isEmpty = true
          · rw [summarize_document_regen_empty b doc mp h hne hinv hthr hrep]
            exact hgsp
          · have hrep' : (generate_replacement_summary b mp).isEmpty = false := by
              revert hrep; cases (generate_replacement_summary b mp).isEmpty <;> simp
            rw [summarize_document_regen b doc mp h hne hinv hthr hrep']
            exact ⟨generate_replacement_summary_length_le b mp,
              fun p hp => generate_replacement_summary_point_le b mp p hp⟩
        · rw [summarize_document_filter b doc mp h hne hinv hthr]
          cases hv : b.validationResp with
          | error e =>
              exfalso
              have : (validate_summary b (generate_summary_points b mp)).invalid_points_count
                  = 0 := by simp [validate_summary, hv]
              omega
          | ok analysis =>
              have hvp : valid_points_of (validate_summary b (generate_summary_points b mp)) =
                  supported_points analysis := by
                simp [validate_summary, hv, valid_points_of]
              rw [hvp]
              have hs := hsub analysis hv
              constructor
              · exact le_trans hs.length_le hgsp.1
              · intro p hp
                exact hgsp.2 p (hs.subset hp)
      · rw [summarize_document_all_valid b doc mp h hne hinv]
        exact hgsp
    · rw [summarize_document_no_validation b doc mp ve h (by simpa using hve)]
      exact hgsp

set_option maxRecDepth 10000 in
/-- C3 witness: the amended theorem applied to a backend whose validation
echoes the single generated point back. -/
theorem claim_C3_witness :
    ((summarize_document backend_plain test_document 10 true).1).summary.length ≤ 10 ∧
    ∀ p ∈ ((summarize_document backend_plain test_document 10 true).1).summary,
      pyLen p ≤ 100 :=
  claim_C3 backend_plain test_document 10 true (by decide)
    (fun analysis ha => by
      have : analysis = [⟨"p0", true⟩] := by
        have := ha
        simp only [backend_plain] at this
        exact (Except.ok.injEq _ _).mp this.symm
      subst this
      decide)

/-! ## Claim C8: distribution of question counts over types -/

theorem pyDictKeys_eq_of_nodup (l : List String) (h : l.Nodup) : pyDictKeys l = l := by
  induction l with
  | nil => rfl
  | cons t ts ih =>
      obtain ⟨hmem, hnd⟩ := List.nodup_cons.mp h
      unfold pyDictKeys
      rw [ih hnd]
      congr 1
      rw [List.filter_eq_self]
      intro a ha
      simp only [decide_eq_true_eq]
      intro hat
      exact hmem (hat ▸ ha)

theorem count_take_nodup (l : List String) (hl : l.Nodup) (r i : Nat) (h : i < l.length) :
    (l.take r).count (l.get ⟨i, h⟩) = if i < r then 1 else 0 := by
  induction l generalizing r i with
  | nil => simp at h
  | cons x xs ih =>
      obtain ⟨hmem, hnd⟩ := List.nodup_cons.mp hl
      cases i with
      | zero =>
          cases r with
          | zero => simp
          | succ r' =>
              simp only [List.take_succ_cons, List.get]
              rw [List.count_cons_self]
              have hz : (xs.take r').count x = 0 :=
                List.count_eq_zero.mpr (fun hc => hmem (List.mem_of_mem_take hc))
              simp [hz]
      | succ j =>
          cases r with
          | zero => simp
          | succ r' =>
              simp only [List.take_succ_cons, List.get]
              rw [List.count_cons]
              rw [ih hnd r' j (by simpa using h)]
              simp [Nat.succ_lt_succ_iff]
              intro he
              apply hmem
              rw [he]
              exact List.getElem_mem (by simpa using h)

theorem count_eq_filter_len (t : String) (sub : List String) :
    sub.count t = (sub.filter (fun s => decide (s = t))).length := by
  have hfun : (fun (s : String) => s == t) = (fun s => decide (s = t)) := by
    funext a
    by_cases ha : a = t
    · subst ha
      simp
    · simp [ha]
  rw [show sub.count t = sub.countP (fun s => s == t) from rfl, hfun,
    List.countP_eq_length_filter]

theorem sum_count_of_sub (ts : List String) (hnd : ts.Nodup) :
    ∀ sub : List String, (∀ x ∈ sub, x ∈ ts) →
      (ts.map (fun t => sub.count t)).sum = sub.length := by
  induction ts with
  | nil =>
      intro sub hsub
      cases sub with
      | nil => simp
      | cons a l => exact absurd (hsub a (List.mem_cons_self a l)) (List.not_mem_nil a)
  | cons t ts' ih =>
      intro sub hsub
      obtain ⟨hmem, hnd'⟩ := List.nodup_cons.mp hnd
      simp only [List.map_cons, List.sum_cons]
      have hsplit : sub.length =
          sub.count t + (sub.filter (fun s => decide (s ≠ t))).length := by
        have h0 := List.length_eq_length_filter_add (l := sub) (fun s => decide (s = t))
        rw [count_eq_filter_len]
        rw [h0]
        congr 2
        apply List.filter_congr
        intro a _
        simp [decide_not]
      have hrest : (ts'.map (fun u => sub.count u)).sum =
          (ts'.map (fun u => (sub.filter (fun s => decide (s ≠ t))).count u)).sum := by
        congr 1
        apply List.map_congr_left
        intro u hu
        have hut : u ≠ t := fun he => hmem (he ▸ hu)
        rw [List.count_filter]
        simp [hut]
      rw [hrest, ih hnd' (sub.filter (fun s => decide (s ≠ t))) ?_, hsplit]
      intro x hx
      have hx1 := List.mem_of_mem_filter hx
      have hx2 : x ≠ t := by
        have := List.of_mem_filter hx
        simpa using this
      have := hsub x hx1
      simp only [List.mem_cons] at this
      exact this.resolve_left hx2

theorem sum_map_const_add (l : List String) (base : Nat) (f : String → Nat) :
    (l.map (fun t => base + f t)).sum = l.length * base + (l.map f).sum := by
  induction l with
  | nil => simp
  | cons a l ih =>
      simp only [List.map_cons, List.sum_cons, List.length_cons, ih, Nat.succ_mul]
      omega

/-- C8 counterexample: a duplicated entry in question_types collapses in the
dict comprehension, so with num_questions = 3 and types ["a", "a"] the dict
holds the single key "a" with count 2, and the per-type counts sum to 2, not
to num_questions = 3 as the claim asserts for every non-empty list of
types. -/
theorem claim_C8_counterexample :
    qtype_counts 3 ["a","a"] = [("a", 2)] ∧
    ((qtype_counts 3 ["a","a"]).map Prod.snd).sum ≠ 3 := by
  decide

/-- C8 (amended): for every num_questions and every non-empty list of distinct
question types, the dict keys are the types in order, the type at position i
receives floor(num/len) questions plus one extra when i < num mod len, the
per-type counts sum to num_questions, and any two counts differ by at most
one. -/
theorem claim_C8 (num : Nat) (types : List String)
    (hne : types ≠ []) (hnd : types.Nodup) :
    (qtype_counts num types).map Prod.fst = types ∧
    (∀ i (h : i < types.length),
      qtype_count num types (types.get ⟨i, h⟩) =
        num / types.length + if i < num % types.length then 1 else 0) ∧
    ((qtype_counts num types).map Prod.snd).sum = num ∧
    (∀ c ∈ (qtype_counts num types).map Prod.snd,
     ∀ d ∈ (qtype_counts num types).map Prod.snd, c ≤ d + 1) := by
  have hL : 0 < types.length := List.length_pos.mpr hne
  have hkeys : pyDictKeys types = types := pyDictKeys_eq_of_nodup types hnd
  have hpos : ∀ i (h : i < types.length),
      qtype_count num types (types.get ⟨i, h⟩) =
        num / types.length + if i < num % types.length then 1 else 0 := by
    intro i h
    unfold qtype_count
    rw [count_take_nodup types hnd (num % types.length) i h]
  have hsnd : (qtype_counts num types).map Prod.snd =
      types.map (fun t => qtype_count num types t) := by
    simp [qtype_counts, hkeys, List.map_map]
  have hsum : ((qtype_counts num types).map Prod.snd).sum = num := by
    rw [hsnd]
    unfold qtype_count
    rw [sum_map_const_add types (num / types.length)
      (fun t => (types.take (num % types.length)).count t)]
    rw [sum_count_of_sub types hnd (types.take (num % types.length))
      (fun x hx => List.mem_of_mem_take hx)]
    rw [List.length_take]
    rw [min_eq_left (le_of_lt (Nat.mod_lt num hL))]
    exact Nat.div_add_mod num types.length
  have hval : ∀ c ∈ (qtype_counts num types).map Prod.snd,
      c = num / types.length ∨ c = num / types.length + 1 := by
    intro c hc
    rw [hsnd] at hc
    obtain ⟨t, ht, rfl⟩ := List.mem_map.mp hc
    obtain ⟨⟨i, h⟩, rfl⟩ := List.mem_iff_get.mp ht
    rw [hpos i h]
    by_cases hi : i < num % types.length
    · right; simp [hi]
    · left; simp [hi]
  refine ⟨?_, hpos, hsum, ?_⟩
  · simp only [qtype_counts, hkeys, List.map_map]
    exact List.map_id types
  · intro c hc d hd
    rcases hval c hc with h1 | h1 <;> rcases hval d hd with h2 | h2 <;> omega

/-- C8 witness: the amended theorem applied to five questions over the two
standard types: the counts are [3, 2], summing to 5. -/
theorem claim_C8_witness :
    ((qtype_counts 5 ["multiple_choice", "short_answer"]).map Prod.snd).sum = 5 :=
  (claim_C8 5 ["multiple_choice", "short_answer"] (by decide) (by decide)).2.2.1

/-! ## Claim C9: adversarial examples -/

/-- The state after one iteration of the adversarial logging loop. -/
def adv_step_state (material_id : String) (ex : RawQuestion) (st : St) : St :=
  (log_qa_change (fresh_id st).2 (fresh_id st).1 material_id "created"
    "Generated adversarial example"
    { mk_adversarial_question material_id (fresh_id st).1 ex with
      is_adversarial := some true
      adversarial_type := some (ex.adversarial_type.getD "general") }).2

/-- The changelog entry one iteration of the adversarial logging loop
appends. -/
def adv_entry (material_id : String) (ex : RawQuestion) (st : St) : ChangelogEntry :=
  { id := (fresh_id (fresh_id st).2).1
    question_id := (fresh_id st).1
    material_id := material_id
    action := "created"
    details := "Generated adversarial example"
    qa_data :=
      { mk_adversarial_question material_id (fresh_id st).1 ex with
        is_adversarial := some true
        adversarial_type := some (ex.adversarial_type.getD "general") }
    previous_data := none }

theorem adversarial_log_loop_cons (material_id : String) (ex : RawQuestion)
    (rest : List RawQuestion) (st : St) :
    adversarial_log_loop material_id (ex :: rest) st =
      (mk_adversarial_question material_id (fresh_id st).1 ex ::
        (adversarial_log_loop material_id rest (adv_step_state material_id ex st)).1,
       (adversarial_log_loop material_id rest (adv_step_state material_id ex st)).2) := rfl

theorem adv_step_state_db (material_id : String) (ex : RawQuestion) (st : St) :
    (adv_step_state material_id ex st).db =
      { st.db with changelog := st.db.changelog ++ [adv_entry material_id ex st] } := rfl

theorem adversarial_log_loop_spec (material_id : String) (adv : List RawQuestion) :
    ∀ st : St,
      ((adversarial_log_loop material_id adv st).2).db.materials = st.db.materials ∧
      ((adversarial_log_loop material_id adv st).2).db.questions = st.db.questions ∧
      ((adversarial_log_loop material_id adv st).2).db.feedback = st.db.feedback ∧
      (∃ entries,
        ((adversarial_log_loop material_id adv st).2).db.changelog =
          st.db.changelog ++ entries ∧
        entries.length = adv.length ∧
        ∀ e ∈ entries, e.action = "created" ∧ e.qa_data.is_adversarial = some true ∧
          e.qa_data.difficulty = "hard" ∧ e.qa_data.adversarial_type.isSome = true) ∧
      (adversarial_log_loop material_id adv st).1.length = adv.length ∧
      ∀ q ∈ (adversarial_log_loop material_id adv st).1,
        q.is_adversarial = none ∧ q.difficulty = "hard" ∧ q.adversarial_type = none := by
  induction adv with
  | nil =>
      intro st
      refine ⟨rfl, rfl, rfl, ⟨[], ?_, rfl, by simp⟩, rfl, ?_⟩
      · show st.db.changelog = st.db.changelog ++ []
        simp
      · intro q hq'
        exact absurd hq' (List.not_mem_nil q)
  | cons ex rest ih =>
      intro st
      rw [adversarial_log_loop_cons]
      obtain ⟨hm, hq, hf, ⟨entries, hc, hlen, hall⟩, hqlen, hqs⟩ :=
        ih (adv_step_state material_id ex st)
      rw [adv_step_state_db] at hm hq hf hc
      refine ⟨hm, hq, hf,
        ⟨adv_entry material_id ex st :: entries, ?_, by simp [hlen], ?_⟩,
        by simp [hqlen], ?_⟩
      · rw [hc]
        simp
      · intro e he
        rcases List.mem_cons.mp he with rfl | he'
        · exact ⟨rfl, rfl, rfl, rfl⟩
        · exact hall e he'
      · intro q hq'
        rcases List.mem_cons.mp hq' with rfl | hq''
        · exact ⟨rfl, rfl, rfl⟩
        · exact hqs q hq''

theorem insert_adversarial_spec (qs : List QuestionDoc) :
    ∀ st : St,
      (insert_adversarial st qs).db.questions =
        st.db.questions ++ qs.map (fun q => { q with is_adversarial := some true }) ∧
      (insert_adversarial st qs).db.changelog = st.db.changelog ∧
      (insert_adversarial st qs).db.materials = st.db.materials ∧
      (insert_adversarial st qs).db.feedback = st.db.feedback := by
  induction qs with
  | nil =>
      intro st
      exact ⟨by simp [insert_adversarial], rfl, rfl, rfl⟩
  | cons q qs ih =>
      intro st
      have hstep : insert_adversarial st (q :: qs) =
          insert_adversarial
            { st with db := { st.db with questions :=
                st.db.questions ++ [{ q with is_adversarial := some true }] } } qs := rfl
      rw [hstep]
      obtain ⟨h1, h2, h3, h4⟩ := ih
        { st with db := { st.db with questions :=
            st.db.questions ++ [{ q with is_adversarial := some true }] } }
      refine ⟨?_, h2, h3, h4⟩
      rw [h1]
      simp

theorem generate_adversarial_examples_ok (adv : List RawQuestion) (st : St) (mid : String)
    (hm : mid ∈ st.db.materials) :
    generate_adversarial_examples (some adv) st mid =
      (.ok (adversarial_log_loop mid adv st).1,
       insert_adversarial (adversarial_log_loop mid adv st).2
         (adversarial_log_loop mid adv st).1) := by
  simp [generate_adversarial_examples, hm]

/-- C9 (amended): every question record persisted by
generate_adversarial_examples is stored with is_adversarial = true and
difficulty = hard, but with no adversarial_type field; the adversarial_type
string from the model labeling (defaulting to general when absent) is recorded
only on the qa_data snapshot of the created changelog entries. -/
theorem claim_C9 (adv : List RawQuestion) (st : St) (material_id : String)
    (hm : material_id ∈ st.db.materials) :
    (∀ q ∈ (((generate_adversarial_examples (some adv) st material_id).2).db.questions.drop
        st.db.questions.length),
      q.is_adversarial = some true ∧ q.difficulty = "hard" ∧ q.adversarial_type = none) ∧
    (((generate_adversarial_examples (some adv) st material_id).2).db.questions.length =
      st.db.questions.length + adv.length) ∧
    (∃ entries,
      ((generate_adversarial_examples (some adv) st material_id).2).db.changelog =
        st.db.changelog ++ entries ∧
      entries.length = adv.length ∧
      ∀ e ∈ entries, e.action = "created" ∧ e.qa_data.is_adversarial = some true ∧
        e.qa_data.difficulty = "hard" ∧ e.qa_data.adversarial_type.isSome = true) := by
  rw [generate_adversarial_examples_ok adv st material_id hm]
  obtain ⟨hm2, hq2, hf2, ⟨entries, hc2, hlen2, hall2⟩, hqlen2, hqs2⟩ :=
    adversarial_log_loop_spec material_id adv st
  obtain ⟨hi1, hi2, hi3, hi4⟩ :=
    insert_adversarial_spec (adversarial_log_loop material_id adv st).1
      (adversarial_log_loop material_id adv st).2
  refine ⟨?_, ?_, entries, ?_, hlen2, hall2⟩
  · intro q hq'
    rw [hi1, hq2, List.drop_left] at hq'
    obtain ⟨q0, hq0, rfl⟩ := List.mem_map.mp hq'
    obtain ⟨ha1, ha2, ha3⟩ := hqs2 q0 hq0
    exact ⟨rfl, ha2, ha3⟩
  · rw [hi1, hq2]
    simp [hqlen2]
  · rw [hi2, hc2]

/-- One adversarial example as the model labels it, with an explicit
adversarial_type. -/
def adv_example : RawQuestion :=
  { question := some "Which subtle case breaks the rule?"
    qtype := some "multiple_choice"
    options := some ["A", "B", "C", "D"]
    correct_answer := some (.int 2)
    topic := some "Edge cases"
    adversarial_type := some "misconception" }

/-- One adversarial example whose labeling omits adversarial_type. -/
def adv_example_untyped : RawQuestion :=
  { question := some "What exactly does the definition require?"
    qtype := some "short_answer"
    correct_answer := some (.str "precision")
    topic := some "Precision" }

/-- An empty store holding one material. -/
def st_mat : St :=
  { db := { materials := ["m1"], questions := [], feedback := [], changelog := [] }
    next_id := 0 }

/-- C9 counterexample: the persisted question record carries no
adversarial_type field even though the model labeled the example
(misconception); the label survives only on the changelog snapshot. -/
theorem claim_C9_counterexample :
    (((generate_adversarial_examples (some [adv_example]) st_mat "m1").2).db.questions.map
        (fun q => q.adversarial_type)) = [none] ∧
    (((generate_adversarial_examples (some [adv_example]) st_mat "m1").2).db.changelog.map
        (fun e => e.qa_data.adversarial_type)) = [some "misconception"] := by
  decide

/-- C9 witness: the amended theorem applied to a two-example batch, one
labeled and one unlabeled. -/
theorem claim_C9_witness :
    (∀ q ∈ (((generate_adversarial_examples (some [adv_example, adv_example_untyped])
        st_mat "m1").2).db.questions.drop st_mat.db.questions.length),
      q.is_adversarial = some true ∧ q.difficulty = "hard" ∧ q.adversarial_type = none) ∧
    ((generate_adversarial_examples (some [adv_example, adv_example_untyped])
        st_mat "m1").2).db.questions.length = st_mat.db.questions.length + 2 :=
  ⟨(claim_C9 [adv_example, adv_example_untyped] st_mat "m1" (by decide)).1,
   (claim_C9 [adv_example, adv_example_untyped] st_mat "m1" (by decide)).2.1⟩

/-! ## Claim C4: changelog discipline -/

/-- The state after one successful iteration of the generation loop. -/
def create_step_state (mid qt diff : String) (raw : RawQuestion) (st : St) : St :=
  (log_qa_change (fresh_id st).2 (fresh_id st).1 mid "created"
    "Automatically generated QA pair"
    (mk_generated_question mid qt diff (fresh_id st).1 raw)).2

/-- The changelog entry one successful iteration of the generation loop
appends. -/
def create_entry (mid qt diff : String) (raw : RawQuestion) (st : St) : ChangelogEntry :=
  { id := (fresh_id (fresh_id st).2).1
    question_id := (fresh_id st).1
    material_id := mid
    action := "created"
    details := "Automatically generated QA pair"
    qa_data := mk_generated_question mid qt diff (fresh_id st).1 raw
    previous_data := none }

theorem create_step_state_db (mid qt diff : String) (raw : RawQuestion) (st : St) :
    (create_step_state mid qt diff raw st).db =
      { st.db with changelog := st.db.changelog ++ [create_entry mid qt diff raw st] } := rfl

theorem create_question_step_ok (mid qt diff : String) (raw : RawQuestion) (st : St)
    (hd : diff ∈ difficulty_values) :
    create_question_step mid qt diff raw st =
      .ok (mk_generated_question mid qt diff (fresh_id st).1 raw,
        create_step_state mid qt diff raw st) := by
  simp [create_question_step, hd, create_step_state]

theorem create_questions_from_cons_ok (mid qt diff : String) (raw : RawQuestion)
    (rest : List RawQuestion) (st : St) (hd : diff ∈ difficulty_values) :
    create_questions_from mid qt diff (raw :: rest) st =
      (match create_questions_from mid qt diff rest (create_step_state mid qt diff raw st) with
       | (.error e, st3) => (.error e, st3)
       | (.ok qds', st3) =>
           (.ok (mk_generated_question mid qt diff (fresh_id st).1 raw :: qds'), st3)) := by
  rw [show create_questions_from mid qt diff (raw :: rest) st =
      (match create_question_step mid qt diff raw st with
       | .error e => (.error e, st)
       | .ok (qd, st2) =>
           match create_questions_from mid qt diff rest st2 with
           | (.error e, st3) => (.error e, st3)
           | (.ok qds', st3) => (.ok (qd :: qds'), st3)) from rfl,
    create_question_step_ok mid qt diff raw st hd]

theorem create_questions_from_cons_bad (mid qt diff : String) (raw : RawQuestion)
    (rest : List RawQuestion) (st : St) (hd : ¬ diff ∈ difficulty_values) :
    create_questions_from mid qt diff (raw :: rest) st =
      (.error (diff ++ " is not a valid DifficultyLevel"), st) := by
  rw [show create_questions_from mid qt diff (raw :: rest) st =
      (match create_question_step mid qt diff raw st with
       | .error e => (.error e, st)
       | .ok (qd, st2) =>
           match create_questions_from mid qt diff rest st2 with
           | (.error e, st3) => (.error e, st3)
           | (.ok qds', st3) => (.ok (qd :: qds'), st3)) from rfl,
    show create_question_step mid qt diff raw st =
      .error (diff ++ " is not a valid DifficultyLevel") from by
        simp [create_question_step, hd]]

theorem create_questions_from_ok (mid qt diff : String) (raws : List RawQuestion) :
    ∀ (st : St) (qds : List QuestionDoc) (st' : St),
      create_questions_from mid qt diff raws st = (.ok qds, st') →
      st'.db.questions = st.db.questions ∧
      st'.db.feedback = st.db.feedback ∧
      st'.db.materials = st.db.materials ∧
      ∃ entries, st'.db.changelog = st.db.changelog ++ entries ∧
        entries.length = qds.length ∧ ∀ e ∈ entries, e.action = "created" := by
  induction raws with
  | nil =>
      intro st qds st' h
      simp only [create_questions_from, Prod.mk.injEq, Except.ok.injEq] at h
      obtain ⟨rfl, rfl⟩ := h
      exact ⟨rfl, rfl, rfl, [], by simp, rfl, by simp⟩
  | cons raw rest ih =>
      intro st qds st' h
      by_cases hd : diff ∈ difficulty_values
      · rw [create_questions_from_cons_ok mid qt diff raw rest st hd] at h
        rcases hrec : create_questions_from mid qt diff rest
            (create_step_state mid qt diff raw st) with ⟨res, st3⟩
        rw [hrec] at h
        cases res with
        | error e => simp at h
        | ok qds' =>
            simp only [Prod.mk.injEq, Except.ok.injEq] at h
            obtain ⟨rfl, rfl⟩ := h
            obtain ⟨h1, h2, h3, entries, hc, hlen, hall⟩ :=
              ih (create_step_state mid qt diff raw st) qds' st3 hrec
            rw [create_step_state_db] at h1 h2 h3 hc
            refine ⟨h1, h2, h3, create_entry mid qt diff raw st :: entries, ?_,
              by simp [hlen], ?_⟩
            · rw [hc]
              simp
            · intro e he
              rcases List.mem_cons.mp he with rfl | he'
              · rfl
              · exact hall e he'
      · rw [create_questions_from_cons_bad mid qt diff raw rest st hd] at h
        simp at h

theorem generate_for_types_ok (quiz_resp : String → Nat → List RawQuestion)
    (mid diff : String) (dist : List (String × Nat)) :
    ∀ (st : St) (qds : List QuestionDoc) (st' : St),
      generate_for_types quiz_resp mid diff dist st = (.ok qds, st') →
      st'.db.questions = st.db.questions ∧
      st'.db.feedback = st.db.feedback ∧
      st'.db.materials = st.db.materials ∧
      ∃ entries, st'.db.changelog = st.db.changelog ++ entries ∧
        entries.length = qds.length ∧ ∀ e ∈ entries, e.action = "created" := by
  induction dist with
  | nil =>
      intro st qds st' h
      simp only [generate_for_types, Prod.mk.injEq, Except.ok.injEq] at h
      obtain ⟨rfl, rfl⟩ := h
      exact ⟨rfl, rfl, rfl, [], by simp, rfl, by simp⟩
  | cons pair rest ih =>
      intro st qds st' h
      obtain ⟨q_type, count⟩ := pair
      by_cases hcount : count = 0
      · rw [show generate_for_types quiz_resp mid diff ((q_type, count) :: rest) st =
            generate_for_types quiz_resp mid diff rest st from by
          simp [generate_for_types, hcount]] at h
        exact ih st qds st' h
      · rw [show generate_for_types quiz_resp mid diff ((q_type, count) :: rest) st =
            (match create_questions_from mid q_type diff (quiz_resp q_type count) st with
             | (.error e, st2) => (.error e, st2)
             | (.ok qds1, st2) =>
                 match generate_for_types quiz_resp mid diff rest st2 with
                 | (.error e, st3) => (.error e, st3)
                 | (.ok more, st3) => (.ok (qds1 ++ more), st3)) from by
          simp [generate_for_types, hcount]] at h
        rcases hcr : create_questions_from mid q_type diff (quiz_resp q_type count) st
          with ⟨res1, st2⟩
        rw [hcr] at h
        cases res1 with
        | error e => simp at h
        | ok qds1 =>
            replace h :
                (match generate_for_types quiz_resp mid diff rest st2 with
                 | (.error e, st3) => ((.error e : Except String (List QuestionDoc)), st3)
                 | (.ok more, st3) => (.ok (qds1 ++ more), st3)) = (.ok qds, st') := h
            rcases hrec : generate_for_types quiz_resp mid diff rest st2 with ⟨res2, st3⟩
            rw [hrec] at h
            cases res2 with
            | error e => simp at h
            | ok more =>
                simp only [Prod.mk.injEq, Except.ok.injEq] at h
                obtain ⟨rfl, rfl⟩ := h
                obtain ⟨h1a, h2a, h3a, entries1, hca, hlena, halla⟩ :=
                  create_questions_from_ok mid q_type diff (quiz_resp q_type count)
                    st qds1 st2 hcr
                obtain ⟨h1b, h2b, h3b, entries2, hcb, hlenb, hallb⟩ :=
                  ih st2 more st3 hrec
                refine ⟨h1b.trans h1a, h2b.trans h2a, h3b.trans h3a,
                  entries1 ++ entries2, ?_, ?_, ?_⟩
                · rw [hcb, hca]
                  simp
                · simp [hlena, hlenb]
                · intro e he
                  rcases List.mem_append.mp he with he' | he'
                  · exact halla e he'
                  · exact hallb e he'

theorem create_questions_batch_db (st : St) (qs : List QuestionDoc) :
    (create_questions_batch st qs).db =
      { st.db with questions := st.db.questions ++ qs } := rfl

theorem generate_qa_pairs_ok (quiz_resp : String → Nat → List RawQuestion) (st : St)
    (mid : String) (num : Nat) (types : List String) (diff : String)
    (qds : List QuestionDoc)
    (h : (generate_qa_pairs quiz_resp st mid num types diff).1 = .ok qds) :
    ∃ entries,
      ((generate_qa_pairs quiz_resp st mid num types diff).2).db.changelog =
        st.db.changelog ++ entries ∧
      entries.length = qds.length ∧ ∀ e ∈ entries, e.action = "created" := by
  by_cases hm : mid ∈ st.db.materials
  · by_cases hlen : types.length = 0
    · rw [show generate_qa_pairs quiz_resp st mid num types diff =
          (.error "integer division or modulo by zero", st) from by
        simp [generate_qa_pairs, hm, hlen]] at h
      simp at h
    · have heq : generate_qa_pairs quiz_resp st mid num types diff =
          (match generate_for_types quiz_resp mid diff (qtype_counts num types) st with
           | (.error e, st2) => (.error e, st2)
           | (.ok all_questions, st2) =>
               (.ok all_questions,
                if all_questions = [] then st2
                else create_questions_batch st2 all_questions)) := by
        simp [generate_qa_pairs, hm, hlen]
      rcases hgen : generate_for_types quiz_resp mid diff (qtype_counts num types) st
        with ⟨res, st2⟩
      rw [hgen] at heq
      cases res with
      | error e =>
          replace heq : generate_qa_pairs quiz_resp st mid num types diff =
              (.error e, st2) := heq
          rw [heq] at h
          simp at h
      | ok all_questions =>
          replace heq : generate_qa_pairs quiz_resp st mid num types diff =
              (.ok all_questions,
               if all_questions = [] then st2
               else create_questions_batch st2 all_questions) := heq
          rw [heq] at h
          simp only [Except.ok.injEq] at h
          subst h
          obtain ⟨h1, h2, h3, entries, hc, hlen2, hall⟩ :=
            generate_for_types_ok quiz_resp mid diff (qtype_counts num types)
              st all_questions st2 hgen
          refine ⟨entries, ?_, hlen2, hall⟩
          rw [heq]
          by_cases hqe : all_questions = []
          · simp [hqe, hc]
          · simp [hqe, create_questions_batch_db, hc]
  · rw [show generate_qa_pairs quiz_resp st mid num types diff =
        (.error ("Study material with ID " ++ mid ++ " not found"), st) from by
      simp [generate_qa_pairs, hm]] at h
    simp at h

theorem update_question_quality_metrics_changelog (st : St) (qid : String) :
    (update_question_quality_metrics st qid).db.changelog = st.db.changelog := by
  by_cases hf : question_feedback st.db qid = []
  · simp [update_question_quality_metrics, hf]
  · simp [update_question_quality_metrics, hf]

theorem improve_question_true (improve_resp : String → Option ImprovedFields) (st : St)
    (q : QuestionDoc) (mid : String) (fb : List FeedbackDoc)
    (h : (improve_question improve_resp st q mid fb).1 = true) :
    ∃ e imp, improve_resp q.id = some imp ∧
      ((improve_question improve_resp st q mid fb).2).db.changelog =
        st.db.changelog ++ [e] ∧
      e.action = "updated" ∧ e.previous_data = some q ∧
      ((improve_question improve_resp st q mid fb).2).db.questions =
        update_one st.db.questions q.id (improvement_update_data q imp) := by
  by_cases hm : mid ∈ st.db.materials
  · cases hio : improve_resp q.id with
    | none =>
        rw [show improve_question improve_resp st q mid fb = (false, st) from by
          simp [improve_question, hm, hio]] at h
        simp at h
    | some imp =>
        have heq : improve_question improve_resp st q mid fb =
            (true,
             (log_qa_change
               { st with db := { st.db with
                   questions := update_one st.db.questions q.id
                     (improvement_update_data q imp) } }
               q.id mid "updated"
               (imp.improvement_notes.getD "Question automatically improved")
               (improvement_update_data q imp q) (some q)).2) := by
          simp [improve_question, hm, hio]
        rw [heq]
        refine ⟨{ id := "uuid-" ++ toString st.next_id
                  question_id := q.id
                  material_id := mid
                  action := "updated"
                  details := imp.improvement_notes.getD "Question automatically improved"
                  qa_data := improvement_update_data q imp q
                  previous_data := some q }, imp, rfl, ?_, rfl, rfl, ?_⟩
        · simp [log_qa_change, fresh_id]
        · simp [log_qa_change, fresh_id]
  · rw [show improve_question improve_resp st q mid fb = (false, st) from by
      simp [improve_question, hm]] at h
    simp at h

theorem improve_question_false (improve_resp : String → Option ImprovedFields) (st : St)
    (q : QuestionDoc) (mid : String) (fb : List FeedbackDoc)
    (h : (improve_question improve_resp st q mid fb).1 = false) :
    (improve_question improve_resp st q mid fb).2 = st := by
  by_cases hm : mid ∈ st.db.materials
  · cases hio : improve_resp q.id with
    | none => simp [improve_question, hm, hio]
    | some imp =>
        rw [show (improve_question improve_resp st q mid fb).1 = true from by
          simp [improve_question, hm, hio]] at h
        simp at h
  · simp [improve_question, hm]

theorem evaluate_question_step_removed (improve_resp : String → Option ImprovedFields)
    (mid : String) (threshold : ℚ) (stats : EvalStats) (st : St)
    (q : QuestionDoc) (fb : List FeedbackDoc)
    (hfb : fb ≠ []) (hq : quality_score_of fb < threshold)
    (hh : helpfulness_of fb < 2/10) :
    evaluate_question_step improve_resp mid threshold (stats, st) (q, fb) =
      ({ stats with removed := stats.removed + 1 },
       (log_qa_change
         { st with db := { st.db with questions := delete_one st.db.questions q.id } }
         q.id mid "removed" (removal_details (quality_score_of fb)) q).2) := by
  simp [evaluate_question_step, hfb, hq, hh]

/-- A question document used in the store fixtures. -/
def q0 : QuestionDoc :=
  { id := "q0", material_id := "m1", question := "What is X?"
    question_type := "short_answer", options := [], correct_answer := some (.str "X")
    topic := some "T", difficulty := "medium" }

/-- A store holding one material and one question with no feedback yet. -/
def st_one_question : St :=
  { db := { materials := ["m1"], questions := [q0], feedback := [], changelog := [] }
    next_id := 0 }

/-- C4 counterexample: record_question_feedback recomputes and persists the
question quality metrics (mutating the stored Question) yet writes no
ChangelogEntry, so this mutation produces zero entries, not exactly one. -/
theorem claim_C4_counterexample :
    ((record_question_feedback st_one_question "q0" "u1" true (some true)
        none none).2).db.changelog = [] ∧
    ((record_question_feedback st_one_question "q0" "u1" true (some true)
        none none).2).db.questions ≠ st_one_question.db.questions := by
  decide

/-- C4 (amended): question creation writes exactly one created entry per
question, a successful improvement writes exactly one updated entry, a removal
writes exactly one removed entry together with the deletion, but the
quality-metrics update performed after record_question_feedback mutates the
stored Question while writing no ChangelogEntry. -/
theorem claim_C4 :
    (∀ (quiz_resp : String → Nat → List RawQuestion) (st : St) (mid : String)
       (num : Nat) (types : List String) (diff : String) (qs : List QuestionDoc),
       (generate_qa_pairs quiz_resp st mid num types diff).1 = .ok qs →
       ∃ entries,
         ((generate_qa_pairs quiz_resp st mid num types diff).2).db.changelog =
           st.db.changelog ++ entries ∧
         entries.length = qs.length ∧ ∀ e ∈ entries, e.action = "created") ∧
    (∀ (improve_resp : String → Option ImprovedFields) (st : St) (q : QuestionDoc)
       (mid : String) (fb : List FeedbackDoc),
       (improve_question improve_resp st q mid fb).1 = true →
       ∃ e, ((improve_question improve_resp st q mid fb).2).db.changelog =
           st.db.changelog ++ [e] ∧ e.action = "updated") ∧
    (∀ (improve_resp : String → Option ImprovedFields) (mid : String) (threshold : ℚ)
       (stats : EvalStats) (st : St) (q : QuestionDoc) (fb : List FeedbackDoc),
       fb ≠ [] → quality_score_of fb < threshold → helpfulness_of fb < 2/10 →
       ∃ e,
         ((evaluate_question_step improve_resp mid threshold (stats, st)
             (q, fb)).2).db.changelog = st.db.changelog ++ [e] ∧
         e.action = "removed" ∧
         ((evaluate_question_step improve_resp mid threshold (stats, st)
             (q, fb)).2).db.questions = delete_one st.db.questions q.id) ∧
    (∀ (st : St) (qid : String),
       (update_question_quality_metrics st qid).db.changelog = st.db.changelog) := by
  refine ⟨?_, ?_, ?_, ?_⟩
  · intro quiz_resp st mid num types diff qs h
    exact generate_qa_pairs_ok quiz_resp st mid num types diff qs h
  · intro improve_resp st q mid fb h
    obtain ⟨e, imp, -, hc, ha, -, -⟩ := improve_question_true improve_resp st q mid fb h
    exact ⟨e, hc, ha⟩
  · intro improve_resp mid threshold stats st q fb hfb hq hh
    rw [evaluate_question_step_removed improve_resp mid threshold stats st q fb hfb hq hh]
    refine ⟨{ id := "uuid-" ++ toString st.next_id
              question_id := q.id
              material_id := mid
              action := "removed"
              details := removal_details (quality_score_of fb)
              qa_data := q
              previous_data := none }, ?_, rfl, ?_⟩
    · simp [log_qa_change, fresh_id]
    · simp [log_qa_change, fresh_id]
  · intro st qid
    exact update_question_quality_metrics_changelog st qid

/-- One raw generated question used by the creation witness. -/
def demo_raw : RawQuestion :=
  { question := some "Define X.", topic := some "Definitions"
    correct_answer := some (.str "X is X") }

/-- Oracle returning count copies of the demo question for any type. -/
def demo_resp (q_type : String) (count : Nat) : List RawQuestion :=
  let _ := q_type
  List.replicate count demo_raw

/-- C4 witness: the amended theorem applied to a concrete one-question
generation (one created entry) and to a concrete metrics update (changelog
untouched). -/
theorem claim_C4_witness :
    (∃ entries,
      ((generate_qa_pairs demo_resp st_mat "m1" 1 ["short_answer"] "medium").2).db.changelog =
        st_mat.db.changelog ++ entries ∧
      entries.length = 1 ∧ ∀ e ∈ entries, e.action = "created") ∧
    (update_question_quality_metrics st_one_question "q0").db.changelog =
      st_one_question.db.changelog := by
  constructor
  · obtain ⟨entries, hc, hlen, hall⟩ := (claim_C4).1 demo_resp st_mat "m1" 1
      ["short_answer"] "medium"
      [mk_generated_question "m1" "short_answer" "medium" "uuid-0" demo_raw] rfl
    exact ⟨entries, hc, hlen, hall⟩
  · exact (claim_C4).2.2.2 st_one_question "q0"

/-! ## Claim C2: quality score -/

/-- The quality-score formula exactly as the spec states it, for a question
with n feedback records: accuracy = correct/n, helpfulness =
helpful_true_count / count_of_non_null_helpful_ratings (0 if no helpfulness
data at all), quality_score = 0.4*accuracy + 0.6*helpfulness. -/
def spec_quality_score (fb : List FeedbackDoc) : ℚ :=
  let accuracy : ℚ := ((fb.countP (fun f => f.is_correct)) : ℚ) / (fb.length : ℚ)
  let non_null := fb.filterMap (fun f => f.is_helpful)
  let helpfulness : ℚ :=
    if non_null.length = 0 then 0
    else ((non_null.countP (fun h => h)) : ℚ) / (non_null.length : ℚ)
  (4/10) * accuracy + (6/10) * helpfulness

theorem evaluate_question_step_no_action (improve_resp : String → Option ImprovedFields)
    (mid : String) (threshold : ℚ) (stats : EvalStats) (st : St)
    (q : QuestionDoc) (fb : List FeedbackDoc)
    (hfb : fb ≠ []) (hq : ¬ quality_score_of fb < threshold) :
    evaluate_question_step improve_resp mid threshold (stats, st) (q, fb) =
      ({ stats with no_action := stats.no_action + 1 }, st) := by
  simp [evaluate_question_step, hfb, hq]

/-- Five feedback records for question q0: two correct answers and non-null
helpfulness ratings [true, false, true]. -/
def fb5 : List FeedbackDoc :=
  [ { id := "f0", question_id := "q0", user_id := "u1", is_correct := true
      is_helpful := some true, difficulty_rating := none, feedback_text := none },
    { id := "f1", question_id := "q0", user_id := "u2", is_correct := true
      is_helpful := some false, difficulty_rating := none, feedback_text := none },
    { id := "f2", question_id := "q0", user_id := "u3", is_correct := false
      is_helpful := some true, difficulty_rating := none, feedback_text := none },
    { id := "f3", question_id := "q0", user_id := "u4", is_correct := false
      is_helpful := none, difficulty_rating := none, feedback_text := none },
    { id := "f4", question_id := "q0", user_id := "u5", is_correct := false
      is_helpful := none, difficulty_rating := none, feedback_text := none } ]

/-- A store with one material, one question and the five feedback records. -/
def st_c2 : St :=
  { db := { materials := ["m1"], questions := [q0], feedback := fb5, changelog := [] }
    next_id := 0 }

theorem quality_score_fb5 : quality_score_of fb5 = 14/25 := by
  norm_num [quality_score_of, accuracy_of, helpfulness_of, helpful_ratings, fb5,
    List.countP_cons, List.filterMap_cons]

/-- C2: the quality score is 0.4*accuracy + 0.6*helpfulness with accuracy the
fraction of correct answers and helpfulness the fraction of true ratings among
the non-null ones (0 when none); the concrete five-record example scores
0.56 = 14/25 and, with threshold 0.3, evaluate_and_update_questions neither
removes nor improves the question. -/
theorem claim_C2 :
    (∀ fb : List FeedbackDoc, fb ≠ [] → quality_score_of fb = spec_quality_score fb) ∧
    quality_score_of fb5 = 14/25 ∧
    (∀ improve_resp : String → Option ImprovedFields,
      evaluate_and_update_questions improve_resp st_c2 "m1" (3/10) =
        ({ total_questions := 1, removed := 0, updated := 0, no_action := 1 }, st_c2)) := by
  refine ⟨?_, quality_score_fb5, ?_⟩
  · intro fb hfb
    have hlen : fb.length ≠ 0 := fun h0 => hfb (List.length_eq_zero.mp h0)
    unfold quality_score_of spec_quality_score accuracy_of helpfulness_of helpful_ratings
    rw [if_neg hlen]
    by_cases hnn : (fb.filterMap (fun f => f.is_helpful)).length = 0
    · simp only [if_pos hnn]
      ring
    · simp only [if_neg hnn]
      ring
  · intro improve_resp
    have hpairs : (st_c2.db.questions.filter (fun q => q.material_id = "m1")).map
        (fun q => (q, question_feedback st_c2.db q.id)) = [(q0, fb5)] := by
      decide
    have hlen1 : (st_c2.db.questions.filter (fun q => q.material_id = "m1")).length = 1 := by
      decide
    have hnb : ¬ quality_score_of fb5 < 3/10 := by
      rw [quality_score_fb5]
      norm_num
    show List.foldl (evaluate_question_step improve_resp "m1" (3/10))
        ({ total_questions :=
            (st_c2.db.questions.filter (fun q => q.material_id = "m1")).length,
           removed := 0, updated := 0, no_action := 0 }, st_c2)
        ((st_c2.db.questions.filter (fun q => q.material_id = "m1")).map
          (fun q => (q, question_feedback st_c2.db q.id))) = _
    rw [hpairs, hlen1]
    rw [List.foldl_cons, List.foldl_nil]
    rw [evaluate_question_step_no_action improve_resp "m1" (3/10)
      { total_questions := 1, removed := 0, updated := 0, no_action := 0 }
      st_c2 q0 fb5 (by decide) hnb]

/-- C2 witness: the formula theorem applied to the concrete five-record
feedback list, and the evaluation conjunct applied to a concrete oracle. -/
theorem claim_C2_witness :
    quality_score_of fb5 = spec_quality_score fb5 ∧
    evaluate_and_update_questions (fun _ => none) st_c2 "m1" (3/10) =
      ({ total_questions := 1, removed := 0, updated := 0, no_action := 1 }, st_c2) :=
  ⟨(claim_C2).1 fb5 (by decide), (claim_C2).2.2 (fun _ => none)⟩
